import Mathlib

/-!
Verification of the crayon rendering command pipeline.

Shallow embedding of `src/graphics/frame.rs` (TaskBuffer, Frame) and
`src/graphics/backend/visitor.rs` (OpenGLVisitor, check) from the crayon
repository.  Machine values are modelled as follows: a byte is a `Nat`
(< 256 in any real run), a `Copy` value is identified with the list of
bytes of its memory representation (`slice::from_raw_parts` over the
value), `u32` casts are taken modulo `2 ^ 32`, Rust panics
(`assert!`, out-of-bounds slicing, `unwrap`, division by zero) are
modelled by `Option`/`Except` with `none`/`error` meaning the panic, and
GL calls are parameterised by the error code `gl::GetError` would report
afterwards.
-/

set_option maxRecDepth 4096

namespace Crayon

/-- The `as u32` cast on a `Nat`-modelled machine integer. -/
def u32 (n : Nat) : Nat := n % 2 ^ 32

/-- `TaskBufferPtr<T>` from frame.rs: `{position: u32, size: u32}` plus a
phantom type parameter that holds no data, so a single Lean structure
embeds every instantiation. -/
structure TaskBufferPtr where
  position : Nat
  size : Nat
deriving DecidableEq

/-- `TaskBuffer(Vec<u8>)` from frame.rs: the append-only byte arena. -/
structure TaskBuffer where
  data : List Nat
deriving DecidableEq

namespace TaskBuffer

/-- `TaskBuffer::with_capacity`: a fresh, empty buffer (capacity is not
observable in the model). -/
def with_capacity : TaskBuffer := ⟨[]⟩

/-- `TaskBuffer::clear`: `self.0.clear()` resets the length to zero. -/
def clear (_buf : TaskBuffer) : TaskBuffer := ⟨[]⟩

/-- `TaskBuffer::extend<T: Copy>`: appends the `size_of::<T>()` bytes of
the value (here: the value is its byte list `value`) and returns the
pointer `{position: (len - data.len()) as u32, size: data.len() as u32}`. -/
def extend (buf : TaskBuffer) (value : List Nat) : TaskBuffer × TaskBufferPtr :=
  let d := buf.data ++ value
  (⟨d⟩, ⟨u32 (d.length - value.length), u32 value.length⟩)

/-- `TaskBuffer::extend_from_slice<T: Copy>`: `elemSize` is
`mem::size_of::<T>()`, `elems` is the slice with each element given by
its byte list.  `len = size_of::<T>().wrapping_mul(slice.len())` (the
wrap cannot fire below `2 ^ 64` bytes and is omitted); the byte view
`u8_slice` of the slice is the concatenation of the element bytes. -/
def extend_from_slice (buf : TaskBuffer) (elemSize : Nat) (elems : List (List Nat)) :
    TaskBuffer × TaskBufferPtr :=
  let len := elemSize * elems.length
  let u8_slice := elems.flatten
  let d := buf.data ++ u8_slice
  (⟨d⟩, ⟨u32 (d.length - len), u32 len⟩)

/-- `TaskBuffer::extend_from_str`: stores the string's UTF-8 bytes via
`extend_from_slice::<u8>` and rewraps the pointer. -/
def extend_from_str (buf : TaskBuffer) (s : List Nat) : TaskBuffer × TaskBufferPtr :=
  let r := extend_from_slice buf 1 (s.map (fun b => [b]))
  (r.1, ⟨r.2.position, r.2.size⟩)

/-- `TaskBuffer::as_bytes`: `&self.0[position as usize..(position + size) as usize]`.
Rust panics when the end index exceeds the length (modelled by `none`). -/
def as_bytes (buf : TaskBuffer) (ptr : TaskBufferPtr) : Option (List Nat) :=
  if ptr.position + ptr.size ≤ buf.data.length then
    some ((buf.data.drop ptr.position).take ptr.size)
  else
    none

/-- `TaskBuffer::as_ref<T: Copy>`: resolves the bytes and asserts
`slice.len() == mem::size_of::<T>()` (`sizeOfT` here); the assertion
failure is modelled by `none`.  The returned view is the byte list of
the reconstructed value. -/
def as_ref (buf : TaskBuffer) (sizeOfT : Nat) (ptr : TaskBufferPtr) : Option (List Nat) :=
  match as_bytes buf ptr with
  | none => none
  | some s => if s.length = sizeOfT then some s else none

/-- Splits a byte list into consecutive chunks of `sz` bytes: the
`slice::from_raw_parts(ptr as *const T, len)` reinterpretation of a byte
slice as a slice of elements of size `sz`. -/
def chunksOf (sz : Nat) (l : List Nat) : List (List Nat) :=
  if hc : sz = 0 ∨ l = [] then [] else l.take sz :: chunksOf sz (l.drop sz)
termination_by l.length
decreasing_by
  push_neg at hc
  have h1 : 0 < sz := Nat.pos_of_ne_zero hc.1
  have h2 : 0 < l.length := List.length_pos.mpr hc.2
  simp only [List.length_drop]
  omega

/-- `TaskBuffer::as_slice<T: Copy>`: resolves the bytes, computes
`len = slice.len() / size_of::<T>()` (division by zero panics when `T`
is zero-sized), asserts `slice.len() == size_of::<T>().wrapping_mul(len)`,
and reinterprets the bytes as `len` elements. -/
def as_slice (buf : TaskBuffer) (sizeOfT : Nat) (ptr : TaskBufferPtr) :
    Option (List (List Nat)) :=
  match as_bytes buf ptr with
  | none => none
  | some s =>
    if sizeOfT = 0 then none
    else
      let len := s.length / sizeOfT
      if s.length = sizeOfT * len then some (chunksOf sizeOfT s) else none

/-- One step of Rust's UTF-8 validation: given the leading byte, how many
continuation bytes follow and which range the first continuation byte
must lie in.  Mirrors `core::str::from_utf8`'s checks. -/
def utf8ContRange (b : Nat) : Option (Nat × Nat × Nat) :=
  if b < 0x80 then some (0, 0, 0)
  else if 0xC2 ≤ b ∧ b ≤ 0xDF then some (1, 0x80, 0xBF)
  else if b = 0xE0 then some (2, 0xA0, 0xBF)
  else if (0xE1 ≤ b ∧ b ≤ 0xEC) ∨ b = 0xEE ∨ b = 0xEF then some (2, 0x80, 0xBF)
  else if b = 0xED then some (2, 0x80, 0x9F)
  else if b = 0xF0 then some (3, 0x90, 0xBF)
  else if 0xF1 ≤ b ∧ b ≤ 0xF3 then some (3, 0x80, 0xBF)
  else if b = 0xF4 then some (3, 0x80, 0x8F)
  else none

/-- Whether `b` is a UTF-8 continuation byte in `[lo, hi]`. -/
def utf8Cont (lo hi b : Nat) : Bool := lo ≤ b ∧ b ≤ hi

/-- UTF-8 validity of a byte list, as checked by `str::from_utf8`. -/
def isValidUtf8 : List Nat → Bool
  | [] => true
  | b :: rest =>
    match utf8ContRange b with
    | none => false
    | some (0, _, _) => isValidUtf8 rest
    | some (1, lo, hi) =>
      match rest with
      | c1 :: r => utf8Cont lo hi c1 && isValidUtf8 r
      | _ => false
    | some (2, lo, hi) =>
      match rest with
      | c1 :: c2 :: r => utf8Cont lo hi c1 && utf8Cont 0x80 0xBF c2 && isValidUtf8 r
      | _ => false
    | some (_ + 3, lo, hi) =>
      match rest with
      | c1 :: c2 :: c3 :: r =>
        utf8Cont lo hi c1 && utf8Cont 0x80 0xBF c2 && utf8Cont 0x80 0xBF c3 &&
          isValidUtf8 r
      | _ => false

/-- `TaskBuffer::as_str`: `str::from_utf8(self.as_bytes(ptr)).unwrap()`;
the `unwrap` of an invalid-UTF-8 error is a panic (`none`).  The view is
the string's byte list. -/
def as_str (buf : TaskBuffer) (ptr : TaskBufferPtr) : Option (List Nat) :=
  match as_bytes buf ptr with
  | none => none
  | some s => if isValidUtf8 s then some s else none

end TaskBuffer

/-! ## Frame and its dispatch (frame.rs)

Resource handles (`ViewHandle`, `PipelineHandle`, ...) are opaque ids,
modelled as `Nat`.  `f32` payload fields are carried as raw 32-bit
patterns (`Nat`); no claim inspects them. -/

/-- `Primitive` from pipeline.rs (variants as used by visitor.rs). -/
inductive Primitive
  | Points | Lines | LineLoop | LineStrip | Triangles | TriangleFan | TriangleStrip
deriving DecidableEq

/-- `PreFrameTask` from frame.rs: resource create/update commands. -/
inductive PreFrameTask
  | CreateView (handle : Nat) (desc : TaskBufferPtr)
  | UpdateViewRect (handle : Nat) (position : Nat × Nat) (size : Nat × Nat)
  | UpdateViewScissor (handle : Nat) (position : Nat × Nat) (size : Nat × Nat)
  | UpdateViewClear (handle : Nat) (clear_color : Option Nat) (clear_depth : Option Nat)
      (clear_stencil : Option Int)
  | CreatePipeline (handle : Nat) (desc : TaskBufferPtr)
  | UpdatePipelineState (handle : Nat) (state : TaskBufferPtr)
  | UpdatePipelineUniform (handle : Nat) (name : TaskBufferPtr) (var : TaskBufferPtr)
  | CreateVertexBuffer (handle : Nat) (desc : TaskBufferPtr)
  | UpdateVertexBuffer (handle : Nat) (offset : Nat) (data : TaskBufferPtr)
  | CreateIndexBuffer (handle : Nat) (desc : TaskBufferPtr)
  | UpdateIndexBuffer (handle : Nat) (offset : Nat) (data : TaskBufferPtr)
deriving DecidableEq

/-- `FrameTask` from frame.rs: one recorded draw call. -/
structure FrameTask where
  view : Nat
  pipeline : Nat
  vb : Nat
  ib : Option Nat
  primitive : Primitive
  from_ : Nat
  len : Nat
  uniforms : TaskBufferPtr
deriving DecidableEq

/-- `PostFrameTask` from frame.rs: resource delete commands. -/
inductive PostFrameTask
  | DeleteView (handle : Nat)
  | DeletePipeline (handle : Nat)
  | DeleteVertexBuffer (handle : Nat)
  | DeleteIndexBuffer (handle : Nat)
deriving DecidableEq

/-- `Frame` from frame.rs. -/
structure Frame where
  pre : List PreFrameTask
  drawcalls : List FrameTask
  post : List PostFrameTask
  buf : TaskBuffer

/-- One observable device interaction of `Frame::dispatch`: which command
is being executed (for draws, the `bind_view` and `draw` device calls). -/
inductive Event
  | pre (task : PreFrameTask)
  | bindView (view : Nat)
  | draw (task : FrameTask)
  | post (task : PostFrameTask)
deriving DecidableEq

/-- The sort key comparison of `self.drawcalls.sort_by_key(|dc| dc.view)`. -/
def viewLE (a b : FrameTask) : Bool := decide (a.view ≤ b.view)

/-- `self.drawcalls.sort_by_key(|dc| dc.view)`: Rust's `sort_by_key` is a
stable sort, embedded as the stable `List.mergeSort` on the same key. -/
def sortedDrawcalls (f : Frame) : List FrameTask :=
  f.drawcalls.mergeSort viewLE

/-- `Frame::dispatch` as the sequence of device calls it issues when no
call fails: all pre-commands in order, then per sorted draw call
`bind_view` followed by `draw`, then all post-commands in order. -/
def Frame.dispatch (f : Frame) : List Event :=
  (f.pre.map Event.pre)
    ++ ((sortedDrawcalls f).flatMap (fun dc => [Event.bindView dc.view, Event.draw dc]))
    ++ (f.post.map Event.post)

/-- Executes the device calls in order. Every call in `Frame::dispatch`
is `.unwrap()`-ed, so the first call whose result is an error panics:
the failing call is the last one attempted (`true` = panicked) and no
later call runs. `ok e` tells whether the device call `e` succeeds. -/
def runEvents (ok : Event → Bool) : List Event → List Event × Bool
  | [] => ([], false)
  | e :: es =>
    if ok e then
      let r := runEvents ok es
      (e :: r.1, r.2)
    else
      ([e], true)

/-- `Frame::dispatch` with per-call outcomes: the attempted device calls
and whether the dispatch panicked on an `unwrap`. -/
def Frame.runDispatch (f : Frame) (ok : Event → Bool) : List Event × Bool :=
  runEvents ok f.dispatch

/-! ## OpenGLVisitor (visitor.rs)

GL ids (`GLuint`) and enums (`GLenum`) are `Nat`; `GLint` locations are
`Int`.  `HashMap`s are association lists (last insert wins, keys
unique).  Every block of raw GL calls ends in `check()`, which reads
`gl::GetError()`; each embedded operation therefore takes the error code
the GL context would report for that block (`glNO_ERROR` when the calls
succeed). -/

/-- `CullFace` from pipeline.rs (variants used by visitor.rs). -/
inductive CullFace
  | Nothing | Front | Back
deriving DecidableEq

/-- `FrontFaceOrder` from pipeline.rs. -/
inductive FrontFaceOrder
  | Clockwise | CounterClockwise
deriving DecidableEq

/-- `Comparison` from pipeline.rs. -/
inductive Comparison
  | Never | Less | LessOrEqual | Greater | GreaterOrEqual | Equal | NotEqual | Always
deriving DecidableEq

/-- `Equation` from pipeline.rs. -/
inductive Equation
  | Add | Subtract | ReverseSubtract
deriving DecidableEq

/-- `BlendValue` from pipeline.rs. -/
inductive BlendValue
  | SourceColor | SourceAlpha | DestinationColor | DestinationAlpha
deriving DecidableEq

/-- `BlendFactor` from pipeline.rs. -/
inductive BlendFactor
  | Zero | One | Value (v : BlendValue) | OneMinusValue (v : BlendValue)
deriving DecidableEq

/-- `ErrorKind` of the crate's errors module.  The module itself is not
under src/; the constructors are the ones visitor.rs names
(`InvalidEnum`, `InvalidValue`, `InvalidOperation`,
`InvalidFramebufferOperation`, `OutOfBounds`, `Unknown`,
`InvalidHandle`, `FailedCompilePipeline`, plus `Message` for the
string `bail!`s).  `OutOfMemory` is modelled from the spec: the spec's
"out-of-memory kind"; visitor.rs never constructs it. -/
inductive ErrorKind
  | InvalidEnum
  | InvalidValue
  | InvalidOperation
  | InvalidFramebufferOperation
  | OutOfBounds
  | Unknown
  | InvalidHandle
  | FailedCompilePipeline (log : String)
  | Message (msg : String)
  | OutOfMemory
deriving DecidableEq

/-- GL error-code constants from the `gl` crate. -/
def glNO_ERROR : Nat := 0

def glINVALID_ENUM : Nat := 0x0500

def glINVALID_VALUE : Nat := 0x0501

def glINVALID_OPERATION : Nat := 0x0502

def glOUT_OF_MEMORY : Nat := 0x0505

def glINVALID_FRAMEBUFFER_OPERATION : Nat := 0x0506

/-- Buffer-target constants from the `gl` crate. -/
def glARRAY_BUFFER : Nat := 0x8892

def glELEMENT_ARRAY_BUFFER : Nat := 0x8893

/-- `check()` from visitor.rs: maps the `gl::GetError()` code to a
`Result`. -/
def check (err : Nat) : Except ErrorKind Unit :=
  if err = glNO_ERROR then Except.ok ()
  else if err = glINVALID_ENUM then Except.error ErrorKind.InvalidEnum
  else if err = glINVALID_VALUE then Except.error ErrorKind.InvalidValue
  else if err = glINVALID_OPERATION then Except.error ErrorKind.InvalidOperation
  else if err = glINVALID_FRAMEBUFFER_OPERATION then
    Except.error ErrorKind.InvalidFramebufferOperation
  else if err = glOUT_OF_MEMORY then Except.error ErrorKind.OutOfBounds
  else Except.error ErrorKind.Unknown

/-- Association-list lookup: `HashMap::get`. -/
def assocFind {κ α : Type} [DecidableEq κ] (k : κ) : List (κ × α) → Option α
  | [] => none
  | (k2, v) :: rest => if k2 = k then some v else assocFind k rest

/-- Association-list insert-or-replace: `HashMap::insert`. -/
def assocInsert {κ α : Type} [DecidableEq κ] (k : κ) (v : α) :
    List (κ × α) → List (κ × α)
  | [] => [(k, v)]
  | (k2, v2) :: rest =>
    if k2 = k then (k, v) :: rest else (k2, v2) :: assocInsert k v rest

/-- The cached state of `OpenGLVisitor` (visitor.rs).  `Cell`/`RefCell`
interior mutability becomes plain fields with explicit state passing;
f32 fields hold raw bit patterns. -/
structure OpenGLVisitor where
  cull_face : CullFace
  front_face_order : FrontFaceOrder
  depth_test : Comparison
  depth_write : Bool
  depth_write_offset : Option (Nat × Nat)
  color_blend : Option (Equation × BlendFactor × BlendFactor)
  color_write : Bool × Bool × Bool × Bool
  viewport : (Nat × Nat) × (Nat × Nat)
  active_bufs : List (Nat × Nat)
  active_program : Option Nat
  active_vao : Option Nat
  program_attribute_locations : List (Nat × List (String × Int))
  program_uniform_locations : List (Nat × List (String × Int))
  vertex_array_objects : List ((Nat × Nat) × Nat)
deriving DecidableEq

namespace OpenGLVisitor

/-- `OpenGLVisitor::new()`. -/
def new : OpenGLVisitor where
  cull_face := CullFace.Back
  front_face_order := FrontFaceOrder.CounterClockwise
  depth_test := Comparison.Always
  depth_write := false
  depth_write_offset := none
  color_blend := none
  color_write := (false, false, false, false)
  viewport := ((0, 0), (128, 128))
  active_bufs := []
  active_program := none
  active_vao := none
  program_attribute_locations := []
  program_uniform_locations := []
  vertex_array_objects := []

/-- `OpenGLVisitor::set_cull_face`: on a cache miss issues
`gl::Enable/gl::CullFace` (or `gl::Disable`), commits the cache, then
runs `check()`.  Returns (state after, whether GL calls were issued,
result).  `glErr` is the error code `check()` will read. -/
def set_cull_face (v : OpenGLVisitor) (face : CullFace) (glErr : Nat) :
    OpenGLVisitor × Bool × Except ErrorKind Unit :=
  if v.cull_face ≠ face then
    ({ v with cull_face := face }, true, check glErr)
  else
    (v, false, Except.ok ())

/-- `OpenGLVisitor::set_viewport`: issues `gl::Viewport` and commits the
cache on change, then `check()`. -/
def set_viewport (v : OpenGLVisitor) (position : Nat × Nat) (size : Nat × Nat)
    (glErr : Nat) : OpenGLVisitor × Bool × Except ErrorKind Unit :=
  if v.viewport.1 ≠ position ∨ v.viewport.2 ≠ size then
    ({ v with viewport := (position, size) }, true, check glErr)
  else
    (v, false, Except.ok ())

/-- `OpenGLVisitor::bind_buffer`: asserts the target is
`ARRAY_BUFFER`/`ELEMENT_ARRAY_BUFFER` (`none` = the `assert!` panic);
short-circuits when the cached binding matches; otherwise issues
`gl::BindBuffer`, commits the cache, then runs `check()`. -/
def bind_buffer (v : OpenGLVisitor) (tp : Nat) (id : Nat) (glErr : Nat) :
    Option (OpenGLVisitor × Bool × Except ErrorKind Unit) :=
  if tp = glARRAY_BUFFER ∨ tp = glELEMENT_ARRAY_BUFFER then
    some (match assocFind tp v.active_bufs with
      | some record =>
        if record = id then
          (v, false, Except.ok ())
        else
          ({ v with active_bufs := assocInsert tp id v.active_bufs }, true, check glErr)
      | none =>
        ({ v with active_bufs := assocInsert tp id v.active_bufs }, true, check glErr))
  else
    none

/-- `OpenGLVisitor::bind_program`: short-circuits on the cached active
program, otherwise issues `gl::UseProgram`, commits, then `check()`. -/
def bind_program (v : OpenGLVisitor) (id : Nat) (glErr : Nat) :
    OpenGLVisitor × Bool × Except ErrorKind Unit :=
  match v.active_program with
  | some record =>
    if record = id then
      (v, false, Except.ok ())
    else
      ({ v with active_program := some id }, true, check glErr)
  | none =>
    ({ v with active_program := some id }, true, check glErr)

/-- The GL context facts the location queries consult:
`gl::GetUniformLocation` and `gl::GetAttribLocation` results. -/
structure GLLocations where
  uniformLoc : Nat → String → Int
  attribLoc : Nat → String → Int

/-- `OpenGLVisitor::get_uniform_location`: looks the program up in
`program_uniform_locations` (a missing program is `InvalidHandle`);
returns the memoized location, or queries `gl::GetUniformLocation`,
runs `check()?`, and memoizes on success. -/
def get_uniform_location (v : OpenGLVisitor) (gl : GLLocations) (id : Nat)
    (name : String) (glErr : Nat) : OpenGLVisitor × Except ErrorKind Int :=
  match assocFind id v.program_uniform_locations with
  | some uniforms =>
    match assocFind name uniforms with
    | some location => (v, Except.ok location)
    | none =>
      match check glErr with
      | Except.error e => (v, Except.error e)
      | Except.ok _ =>
        let location := gl.uniformLoc id name
        let cache2 :=
          assocInsert id (assocInsert name location uniforms) v.program_uniform_locations
        ({ v with program_uniform_locations := cache2 }, Except.ok location)
  | none => (v, Except.error ErrorKind.InvalidHandle)

/-- `OpenGLVisitor::get_attribute_location`: NOTE — faithfully to the
source, this reads and writes `self.program_uniform_locations` (the
local is merely named `attributes`); it queries
`gl::GetAttribLocation`, runs `check()?`, and memoizes on success. -/
def get_attribute_location (v : OpenGLVisitor) (gl : GLLocations) (id : Nat)
    (name : String) (glErr : Nat) : OpenGLVisitor × Except ErrorKind Int :=
  match assocFind id v.program_uniform_locations with
  | some attributes =>
    match assocFind name attributes with
    | some location => (v, Except.ok location)
    | none =>
      match check glErr with
      | Except.error e => (v, Except.error e)
      | Except.ok _ =>
        let location := gl.attribLoc id name
        let cache2 :=
          assocInsert id (assocInsert name location attributes) v.program_uniform_locations
        ({ v with program_uniform_locations := cache2 }, Except.ok location)
  | none => (v, Except.error ErrorKind.InvalidHandle)

/-- The outcome of the GL shader pipeline for one `create_program` run:
compile/link statuses, the info logs read back on failure, and the ids
the GL context hands out. -/
structure ShaderEnv where
  vsCompileOk : Bool
  vsLog : String
  fsCompileOk : Bool
  fsLog : String
  linkOk : Bool
  linkLog : String
  vsId : Nat
  fsId : Nat
  programId : Nat

/-- `OpenGLVisitor::compile`: on a failed `COMPILE_STATUS` bails with
`ErrorKind::FailedCompilePipeline(format!("{}. with source:\n{}\n", log, src))`. -/
def compile (ok : Bool) (log : String) (sid : Nat) (src : String) :
    Except ErrorKind Nat :=
  if ok then
    Except.ok sid
  else
    Except.error (ErrorKind.FailedCompilePipeline (log ++ ". with source:\n" ++ src ++ "\n"))

/-- `OpenGLVisitor::link`: on a failed `LINK_STATUS` bails with
`ErrorKind::FailedCompilePipeline(format!("{}. ", log))`. -/
def link (ok : Bool) (log : String) (pid : Nat) : Except ErrorKind Nat :=
  if ok then
    Except.ok pid
  else
    Except.error (ErrorKind.FailedCompilePipeline (log ++ ". "))

/-- Registers a fresh program's (empty) location caches, as the tail of
`create_program`: an existing entry is cleared, a missing one inserted
empty — in both the uniform and the attribute cache. -/
def registerProgram (v : OpenGLVisitor) (id : Nat) : OpenGLVisitor :=
  { v with
    program_uniform_locations := assocInsert id [] v.program_uniform_locations,
    program_attribute_locations := assocInsert id [] v.program_attribute_locations }

/-- `OpenGLVisitor::create_program`: compiles the vertex then the
fragment shader, links, detaches/deletes the shaders and runs
`check()?`, then registers the program's empty location caches.  Each
`?` propagates the error before any cache is touched. -/
def create_program (v : OpenGLVisitor) (env : ShaderEnv) (vs : String) (fs : String)
    (glErr : Nat) : OpenGLVisitor × Except ErrorKind Nat :=
  match compile env.vsCompileOk env.vsLog env.vsId vs with
  | Except.error e => (v, Except.error e)
  | Except.ok _vsid =>
    match compile env.fsCompileOk env.fsLog env.fsId fs with
    | Except.error e => (v, Except.error e)
    | Except.ok _fsid =>
      match link env.linkOk env.linkLog env.programId with
      | Except.error e => (v, Except.error e)
      | Except.ok id =>
        match check glErr with
        | Except.error e => (v, Except.error e)
        | Except.ok _ =>
          (registerProgram v id, Except.ok id)

/-- Clears a program's entry in one location cache:
`if let Some(v) = cache.get_mut(&id) { v.clear(); }` — the key stays,
the inner map empties. -/
def clearProgramCache (cache : List (Nat × List (String × Int))) (id : Nat) :
    List (Nat × List (String × Int)) :=
  match assocFind id cache with
  | some _ => assocInsert id [] cache
  | none => cache

/-- `OpenGLVisitor::delete_program`: clears the active-program record if
it is this program, issues `gl::DeleteProgram`, empties the program's
entries in both location caches, then runs `check()`. -/
def delete_program (v : OpenGLVisitor) (id : Nat) (glErr : Nat) :
    OpenGLVisitor × Except ErrorKind Unit :=
  let v1 :=
    match v.active_program with
    | some p => if p = id then { v with active_program := none } else v
    | none => v
  let v2 := { v1 with
    program_uniform_locations := clearProgramCache v1.program_uniform_locations id,
    program_attribute_locations := clearProgramCache v1.program_attribute_locations id }
  (v2, check glErr)

end OpenGLVisitor

/-! ## Concrete instances used by counterexamples and witnesses -/

/-- Counts, over a sequence of `set_cull_face` requests against a live GL
context (`gl::GetError` reporting `NO_ERROR`), how many requests called
through to GL (issued `gl::Enable`/`gl::CullFace`/`gl::Disable`). -/
def runCullFaces (v : OpenGLVisitor) (faces : List CullFace) : OpenGLVisitor × Nat :=
  faces.foldl
    (fun acc face =>
      let r := OpenGLVisitor.set_cull_face acc.1 face glNO_ERROR
      (r.1, acc.2 + (if r.2.1 then 1 else 0)))
    (v, 0)

/-- A pre-command whose device call will fail (its view handle 1 is
unknown to the device). -/
def preTaskA : PreFrameTask := PreFrameTask.UpdateViewRect 1 (0, 0) (0, 0)

/-- A later, valid pre-command on view handle 2. -/
def preTaskB : PreFrameTask := PreFrameTask.UpdateViewRect 2 (0, 0) (0, 0)

/-- A frame whose command list is `[preTaskA, preTaskB]`. -/
def frameAB : Frame := ⟨[preTaskA, preTaskB], [], [], ⟨[]⟩⟩

/-- Device outcomes under which the call for `preTaskA` fails and every
other call succeeds. -/
def failOnA (e : Event) : Bool := if e = Event.pre preTaskA then false else true

/-- A GL context in which program 1's uniform named "x" is at location 5
and its attribute named "x" is at location 2. -/
def glLocsX : OpenGLVisitor.GLLocations := ⟨fun _ _ => 5, fun _ _ => 2⟩

/-- A visitor that has successfully created program 1 (both of its
location caches registered empty). -/
def visitorP1 : OpenGLVisitor := OpenGLVisitor.registerProgram OpenGLVisitor.new 1

/-- Shader source text used in the create_program scenarios. -/
def srcAlpha : String := "alpha"

/-- A second, different shader source text. -/
def srcBeta : String := "beta"

/-- The info log the failing stage reports in the scenarios. -/
def logStr : String := "log"

/-- A shader-pipeline outcome where the vertex compile fails with info
log "log" and everything else would succeed. -/
def envVsFail : OpenGLVisitor.ShaderEnv := ⟨false, "log", true, "", true, "", 10, 11, 12⟩

/-- A shader-pipeline outcome where the fragment compile fails with info
log "log" and everything else succeeds. -/
def envFsFail : OpenGLVisitor.ShaderEnv := ⟨true, "", false, "log", true, "", 10, 11, 12⟩

/-- A shader-pipeline outcome where both compiles succeed and the link
fails with info log "linklog". -/
def envLinkFail : OpenGLVisitor.ShaderEnv := ⟨true, "", true, "", false, "linklog", 10, 11, 12⟩

/-! ## TaskBuffer lemmas -/

theorem u32_small {n : Nat} (h : n < 2 ^ 32) : u32 n = n := Nat.mod_eq_of_lt h

theorem as_bytes_eq (buf : TaskBuffer) (ptr : TaskBufferPtr) (pre mid extra : List Nat)
    (hdata : buf.data = pre ++ mid ++ extra)
    (hpos : ptr.position = pre.length) (hsize : ptr.size = mid.length) :
    buf.as_bytes ptr = some mid := by
  unfold TaskBuffer.as_bytes
  rw [hdata, hpos, hsize]
  have hle : pre.length + mid.length ≤ (pre ++ mid ++ extra).length := by
    simp [List.length_append]
  rw [if_pos hle]
  rw [List.append_assoc, List.drop_left, List.take_left]

theorem as_bytes_length (buf : TaskBuffer) (ptr : TaskBufferPtr) (s : List Nat)
    (h : buf.as_bytes ptr = some s) : s.length = ptr.size := by
  unfold TaskBuffer.as_bytes at h
  split at h
  · rename_i hle
    injection h with h
    rw [← h]
    simp only [List.length_take, List.length_drop]
    omega
  · exact absurd h (by simp)

theorem extend_data (buf : TaskBuffer) (value : List Nat) :
    (buf.extend value).1.data = buf.data ++ value := rfl

theorem extend_ptr (buf : TaskBuffer) (value : List Nat)
    (h : buf.data.length + value.length < 2 ^ 32) :
    (buf.extend value).2.position = buf.data.length
    ∧ (buf.extend value).2.size = value.length := by
  unfold TaskBuffer.extend
  constructor
  · show u32 ((buf.data ++ value).length - value.length) = buf.data.length
    rw [List.length_append, Nat.add_sub_cancel]
    exact u32_small (by omega)
  · exact u32_small (by omega)

theorem flatten_uniform_length (elemSize : Nat) :
    ∀ elems : List (List Nat), (∀ e ∈ elems, e.length = elemSize) →
      elems.flatten.length = elemSize * elems.length
  | [], _ => by simp
  | e :: rest, hsz => by
    have he : e.length = elemSize := hsz e (List.mem_cons_self e rest)
    have ih := flatten_uniform_length elemSize rest
      (fun x hx => hsz x (List.mem_cons_of_mem e hx))
    simp only [List.flatten_cons, List.length_append, List.length_cons, ih, he]
    ring

theorem chunksOf_flatten (elemSize : Nat) (h0 : 0 < elemSize) :
    ∀ elems : List (List Nat), (∀ e ∈ elems, e.length = elemSize) →
      TaskBuffer.chunksOf elemSize elems.flatten = elems
  | [], _ => by
    rw [List.flatten_nil, TaskBuffer.chunksOf]
    simp
  | e :: rest, hsz => by
    have he : e.length = elemSize := hsz e (List.mem_cons_self e rest)
    have hne : e ≠ [] := by
      intro hnil
      rw [hnil] at he
      simp at he
      omega
    rw [List.flatten_cons, TaskBuffer.chunksOf]
    have hcond : ¬ (elemSize = 0 ∨ e ++ rest.flatten = []) := by
      push_neg
      exact ⟨by omega, by simp [hne]⟩
    rw [dif_neg hcond]
    have ht : (e ++ rest.flatten).take elemSize = e := by
      rw [← he, List.take_left]
    have hd : (e ++ rest.flatten).drop elemSize = rest.flatten := by
      rw [← he, List.drop_left]
    rw [ht, hd, chunksOf_flatten elemSize h0 rest
      (fun x hx => hsz x (List.mem_cons_of_mem e hx))]

theorem extend_from_slice_data (buf : TaskBuffer) (elemSize : Nat)
    (elems : List (List Nat)) :
    (buf.extend_from_slice elemSize elems).1.data = buf.data ++ elems.flatten := rfl

theorem extend_from_slice_ptr (buf : TaskBuffer) (elemSize : Nat)
    (elems : List (List Nat)) (hsz : ∀ e ∈ elems, e.length = elemSize)
    (h : buf.data.length + elemSize * elems.length < 2 ^ 32) :
    (buf.extend_from_slice elemSize elems).2.position = buf.data.length
    ∧ (buf.extend_from_slice elemSize elems).2.size = elemSize * elems.length := by
  have hfl : elems.flatten.length = elemSize * elems.length :=
    flatten_uniform_length elemSize elems hsz
  unfold TaskBuffer.extend_from_slice
  constructor
  · show u32 ((buf.data ++ elems.flatten).length - elemSize * elems.length)
      = buf.data.length
    rw [List.length_append, hfl, Nat.add_sub_cancel]
    exact u32_small (by omega)
  · exact u32_small (by omega)

theorem flatten_singleton_map (s : List Nat) : (s.map (fun b => [b])).flatten = s := by
  induction s with
  | nil => simp
  | cons b rest ih => simp [ih]

theorem extend_from_str_data (buf : TaskBuffer) (s : List Nat) :
    (buf.extend_from_str s).1.data = buf.data ++ s := by
  show buf.data ++ (s.map (fun b => [b])).flatten = buf.data ++ s
  rw [flatten_singleton_map]

theorem extend_from_str_ptr (buf : TaskBuffer) (s : List Nat)
    (h : buf.data.length + s.length < 2 ^ 32) :
    (buf.extend_from_str s).2.position = buf.data.length
    ∧ (buf.extend_from_str s).2.size = s.length := by
  have hsz : ∀ e ∈ s.map (fun b => [b]), e.length = 1 := by
    intro e he
    obtain ⟨b, _, rfl⟩ := List.mem_map.mp he
    rfl
  have hlen : 1 * (s.map (fun b => [b])).length = s.length := by simp
  have := extend_from_slice_ptr buf 1 (s.map (fun b => [b])) hsz
    (by rw [hlen]; exact h)
  exact ⟨by rw [show (buf.extend_from_str s).2.position
        = (buf.extend_from_slice 1 (s.map (fun b => [b]))).2.position from rfl,
      this.1],
    by rw [show (buf.extend_from_str s).2.size
        = (buf.extend_from_slice 1 (s.map (fun b => [b]))).2.size from rfl,
      this.2, hlen]⟩

theorem extend_as_ref (buf : TaskBuffer) (value : List Nat)
    (h : buf.data.length + value.length < 2 ^ 32) :
    (buf.extend value).1.as_ref value.length (buf.extend value).2 = some value := by
  obtain ⟨hp, hs⟩ := extend_ptr buf value h
  have hb : (buf.extend value).1.as_bytes (buf.extend value).2 = some value :=
    as_bytes_eq _ _ buf.data value []
      (by rw [extend_data]; simp) hp (by rw [hs])
  unfold TaskBuffer.as_ref
  rw [hb]
  simp

theorem extend_from_slice_as_slice (buf : TaskBuffer) (elemSize : Nat)
    (elems : List (List Nat)) (h0 : 0 < elemSize)
    (hsz : ∀ e ∈ elems, e.length = elemSize)
    (h : buf.data.length + elemSize * elems.length < 2 ^ 32) :
    (buf.extend_from_slice elemSize elems).1.as_slice elemSize
      (buf.extend_from_slice elemSize elems).2 = some elems := by
  obtain ⟨hp, hs⟩ := extend_from_slice_ptr buf elemSize elems hsz h
  have hfl : elems.flatten.length = elemSize * elems.length :=
    flatten_uniform_length elemSize elems hsz
  have hb : (buf.extend_from_slice elemSize elems).1.as_bytes
      (buf.extend_from_slice elemSize elems).2 = some elems.flatten :=
    as_bytes_eq _ _ buf.data elems.flatten []
      (by rw [extend_from_slice_data]; simp) hp (by rw [hs, hfl])
  unfold TaskBuffer.as_slice
  rw [hb]
  dsimp only
  have hdiv : elems.flatten.length / elemSize = elems.length := by
    rw [hfl, Nat.mul_div_cancel_left _ h0]
  rw [if_neg (by omega)]
  simp only [hdiv]
  rw [if_pos (by rw [hfl]), chunksOf_flatten elemSize h0 elems hsz]

theorem extend_from_str_as_str (buf : TaskBuffer) (s : List Nat)
    (hutf : TaskBuffer.isValidUtf8 s = true)
    (h : buf.data.length + s.length < 2 ^ 32) :
    (buf.extend_from_str s).1.as_str (buf.extend_from_str s).2 = some s := by
  obtain ⟨hp, hs⟩ := extend_from_str_ptr buf s h
  have hb : (buf.extend_from_str s).1.as_bytes (buf.extend_from_str s).2 = some s :=
    as_bytes_eq _ _ buf.data s []
      (by rw [extend_from_str_data]; simp) hp (by rw [hs])
  unfold TaskBuffer.as_str
  rw [hb]
  dsimp only
  rw [if_pos hutf]

/-- C5: resolving the pointer returned by an append operation on the same
TaskBuffer returns the appended value byte-for-byte — `as_ref` after
`extend` for a Copy value (given by its `value.length = size_of::<T>()`
bytes), `as_slice` after `extend_from_slice` (elements of nonzero size
`elemSize`), `as_str` after `extend_from_str` (valid UTF-8 bytes) — and
the same holds for values appended right after `clear()`, with no
contamination from the pre-clear contents. -/
theorem taskbuffer_resolve_append_roundtrip
    (buf : TaskBuffer) (value : List Nat) (elemSize : Nat) (elems : List (List Nat))
    (s : List Nat)
    (hval : buf.data.length + value.length < 2 ^ 32)
    (helem : 0 < elemSize)
    (hsz : ∀ e ∈ elems, e.length = elemSize)
    (hslice : buf.data.length + elemSize * elems.length < 2 ^ 32)
    (hutf : TaskBuffer.isValidUtf8 s = true)
    (hstr : buf.data.length + s.length < 2 ^ 32) :
    ((buf.extend value).1.as_ref value.length (buf.extend value).2 = some value)
    ∧ ((buf.extend_from_slice elemSize elems).1.as_slice elemSize
        (buf.extend_from_slice elemSize elems).2 = some elems)
    ∧ ((buf.extend_from_str s).1.as_str (buf.extend_from_str s).2 = some s)
    ∧ ((buf.clear.extend value).1.as_ref value.length (buf.clear.extend value).2
        = some value)
    ∧ ((buf.clear.extend_from_slice elemSize elems).1.as_slice elemSize
        (buf.clear.extend_from_slice elemSize elems).2 = some elems)
    ∧ ((buf.clear.extend_from_str s).1.as_str (buf.clear.extend_from_str s).2 = some s) :=
  ⟨extend_as_ref buf value hval,
    extend_from_slice_as_slice buf elemSize elems helem hsz hslice,
    extend_from_str_as_str buf s hutf hstr,
    extend_as_ref buf.clear value (by simp [TaskBuffer.clear]; omega),
    extend_from_slice_as_slice buf.clear elemSize elems helem hsz
      (by simp [TaskBuffer.clear]; omega),
    extend_from_str_as_str buf.clear s hutf (by simp [TaskBuffer.clear]; omega)⟩

/-- Witness for C5 at concrete inputs: a buffer already holding byte 9,
a 4-byte value, a 2-element slice of 2-byte values, and the UTF-8 string
"hi". -/
theorem taskbuffer_resolve_append_roundtrip_witness :
    ((TaskBuffer.mk [9]).extend [1, 2, 3, 4]).1.as_ref 4
        ((TaskBuffer.mk [9]).extend [1, 2, 3, 4]).2 = some [1, 2, 3, 4]
    ∧ ((TaskBuffer.mk [9]).extend_from_slice 2 [[1, 2], [3, 4]]).1.as_slice 2
        ((TaskBuffer.mk [9]).extend_from_slice 2 [[1, 2], [3, 4]]).2
        = some [[1, 2], [3, 4]]
    ∧ ((TaskBuffer.mk [9]).extend_from_str [104, 105]).1.as_str
        ((TaskBuffer.mk [9]).extend_from_str [104, 105]).2 = some [104, 105]
    ∧ ((TaskBuffer.mk [9]).clear.extend [1, 2, 3, 4]).1.as_ref 4
        ((TaskBuffer.mk [9]).clear.extend [1, 2, 3, 4]).2 = some [1, 2, 3, 4] :=
  have h := taskbuffer_resolve_append_roundtrip ⟨[9]⟩ [1, 2, 3, 4] 2 [[1, 2], [3, 4]]
    [104, 105] (by decide) (by decide) (by decide) (by decide) (by decide) (by decide)
  ⟨h.1, h.2.1, h.2.2.1, h.2.2.2.1⟩

/-- C6: resolving a pointer whose stored byte size does not equal
`size_of::<T>()` (`as_ref`), or is not a whole multiple of the element
size (`as_slice`), is a fatal contract error: the `assert_eq!` fires
(or the slicing itself panics) and no view is returned. -/
theorem taskbuffer_size_mismatch_fatal (buf : TaskBuffer) (sizeOfT : Nat)
    (ptr : TaskBufferPtr) :
    (ptr.size ≠ sizeOfT → buf.as_ref sizeOfT ptr = none)
    ∧ (¬ sizeOfT ∣ ptr.size → buf.as_slice sizeOfT ptr = none) := by
  constructor
  · intro hne
    unfold TaskBuffer.as_ref
    cases hab : buf.as_bytes ptr with
    | none => rfl
    | some s =>
      have hlen := as_bytes_length buf ptr s hab
      dsimp only
      rw [if_neg (by omega)]
  · intro hnd
    unfold TaskBuffer.as_slice
    cases hab : buf.as_bytes ptr with
    | none => rfl
    | some s =>
      have hlen := as_bytes_length buf ptr s hab
      dsimp only
      by_cases hz : sizeOfT = 0
      · rw [if_pos hz]
      · rw [if_neg hz, if_neg ?_]
        intro heq
        exact hnd (by rw [← hlen]; exact Dvd.intro _ heq.symm)

/-- Witness for C6: a 2-byte pointer resolved as a 3-byte type, and as a
slice of 3-byte elements. -/
theorem taskbuffer_size_mismatch_fatal_witness :
    TaskBuffer.as_ref ⟨[1, 2]⟩ 3 ⟨0, 2⟩ = none
    ∧ TaskBuffer.as_slice ⟨[1, 2]⟩ 3 ⟨0, 2⟩ = none :=
  ⟨(taskbuffer_size_mismatch_fatal ⟨[1, 2]⟩ 3 ⟨0, 2⟩).1 (by decide),
    (taskbuffer_size_mismatch_fatal ⟨[1, 2]⟩ 3 ⟨0, 2⟩).2 (by decide)⟩

/-- C10: every pointer returned by `extend`, `extend_from_slice` or
`extend_from_str` satisfies `position + size = buffer length` at the
moment of return, and as long as the buffer only grows by further
appends (no `clear`), `as_bytes` on that pointer stays in bounds and
returns the appended bytes — it never panics. -/
theorem taskbuffer_ptr_in_bounds
    (buf : TaskBuffer) (value : List Nat) (elemSize : Nat) (elems : List (List Nat))
    (s : List Nat)
    (hval : buf.data.length + value.length < 2 ^ 32)
    (hsz : ∀ e ∈ elems, e.length = elemSize)
    (hslice : buf.data.length + elemSize * elems.length < 2 ^ 32)
    (hstr : buf.data.length + s.length < 2 ^ 32) :
    ((buf.extend value).2.position + (buf.extend value).2.size
        = (buf.extend value).1.data.length
      ∧ ∀ extra : List Nat,
          TaskBuffer.as_bytes ⟨(buf.extend value).1.data ++ extra⟩ (buf.extend value).2
            = some value)
    ∧ ((buf.extend_from_slice elemSize elems).2.position
          + (buf.extend_from_slice elemSize elems).2.size
        = (buf.extend_from_slice elemSize elems).1.data.length
      ∧ ∀ extra : List Nat,
          TaskBuffer.as_bytes ⟨(buf.extend_from_slice elemSize elems).1.data ++ extra⟩
            (buf.extend_from_slice elemSize elems).2 = some elems.flatten)
    ∧ ((buf.extend_from_str s).2.position + (buf.extend_from_str s).2.size
        = (buf.extend_from_str s).1.data.length
      ∧ ∀ extra : List Nat,
          TaskBuffer.as_bytes ⟨(buf.extend_from_str s).1.data ++ extra⟩
            (buf.extend_from_str s).2 = some s) := by
  obtain ⟨hp1, hs1⟩ := extend_ptr buf value hval
  obtain ⟨hp2, hs2⟩ := extend_from_slice_ptr buf elemSize elems hsz hslice
  obtain ⟨hp3, hs3⟩ := extend_from_str_ptr buf s hstr
  have hfl : elems.flatten.length = elemSize * elems.length :=
    flatten_uniform_length elemSize elems hsz
  refine ⟨⟨?_, ?_⟩, ⟨?_, ?_⟩, ⟨?_, ?_⟩⟩
  · rw [hp1, hs1, extend_data, List.length_append]
  · intro extra
    exact as_bytes_eq _ _ buf.data value extra (by rw [extend_data]) hp1 hs1
  · rw [hp2, hs2, extend_from_slice_data, List.length_append, hfl]
  · intro extra
    exact as_bytes_eq _ _ buf.data elems.flatten extra
      (by rw [extend_from_slice_data]) hp2 (by rw [hs2, hfl])
  · rw [hp3, hs3, extend_from_str_data, List.length_append]
  · intro extra
    exact as_bytes_eq _ _ buf.data s extra (by rw [extend_from_str_data]) hp3 hs3

/-- Witness for C10: the extend pointer stays resolvable after two more
bytes are appended. -/
theorem taskbuffer_ptr_in_bounds_witness :
    ((TaskBuffer.mk [9]).extend [1, 2, 3, 4]).2.position
        + ((TaskBuffer.mk [9]).extend [1, 2, 3, 4]).2.size
      = ((TaskBuffer.mk [9]).extend [1, 2, 3, 4]).1.data.length
    ∧ TaskBuffer.as_bytes ⟨((TaskBuffer.mk [9]).extend [1, 2, 3, 4]).1.data ++ [7, 8]⟩
        ((TaskBuffer.mk [9]).extend [1, 2, 3, 4]).2 = some [1, 2, 3, 4] :=
  have h := taskbuffer_ptr_in_bounds ⟨[9]⟩ [1, 2, 3, 4] 2 [[1, 2], [3, 4]] [104, 105]
    (by decide) (by decide) (by decide) (by decide)
  ⟨h.1.1, h.1.2 [7, 8]⟩

/-! ## Frame dispatch lemmas (C1, C2) -/

theorem viewLE_trans : ∀ a b c : FrameTask, viewLE a b → viewLE b c → viewLE a c := by
  intro a b c hab hbc
  simp only [viewLE, decide_eq_true_eq] at hab hbc ⊢
  omega

theorem viewLE_total : ∀ a b : FrameTask, viewLE a b || viewLE b a := by
  intro a b
  simp only [viewLE]
  by_cases h : a.view ≤ b.view
  · simp [h]
  · simp only [Bool.or_eq_true, decide_eq_true_eq]
    omega

theorem filter_view_pairwise (k : Nat) :
    ∀ l : List FrameTask,
      (l.filter (fun dc => dc.view == k)).Pairwise (fun a b => viewLE a b = true)
  | [] => by simp
  | x :: rest => by
    rw [List.filter_cons]
    by_cases hx : (x.view == k) = true
    · rw [if_pos hx]
      refine List.Pairwise.cons ?_ (filter_view_pairwise k rest)
      intro b hb
      have hbk : (b.view == k) = true := (List.mem_filter.mp hb).2
      simp only [beq_iff_eq] at hx hbk
      simp only [viewLE, decide_eq_true_eq]
      omega
    · rw [if_neg hx]
      exact filter_view_pairwise k rest

theorem sortedDrawcalls_filter_stable (f : Frame) (k : Nat) :
    (sortedDrawcalls f).filter (fun dc => dc.view == k)
      = f.drawcalls.filter (fun dc => dc.view == k) := by
  have hpw := filter_view_pairwise k f.drawcalls
  have h1 : List.Sublist (f.drawcalls.filter (fun dc => dc.view == k))
      (f.drawcalls.mergeSort viewLE) :=
    List.sublist_mergeSort viewLE_trans viewLE_total hpw (List.filter_sublist _)
  have hself : (f.drawcalls.filter (fun dc => dc.view == k)).filter
      (fun dc => dc.view == k) = f.drawcalls.filter (fun dc => dc.view == k) :=
    List.filter_eq_self.mpr (fun a ha => (List.mem_filter.mp ha).2)
  have h2 : List.Sublist (f.drawcalls.filter (fun dc => dc.view == k))
      ((f.drawcalls.mergeSort viewLE).filter (fun dc => dc.view == k)) := by
    have := h1.filter (fun dc => dc.view == k)
    rwa [hself] at this
  have h3 : ((f.drawcalls.mergeSort viewLE).filter (fun dc => dc.view == k)).length
      = (f.drawcalls.filter (fun dc => dc.view == k)).length :=
    ((List.mergeSort_perm f.drawcalls viewLE).filter (fun dc => dc.view == k)).length_eq
  exact (h2.eq_of_length h3.symm).symm

/-- C1: `Frame::dispatch` executes the three command sequences in phase
order — every pre-command in append order, then every draw call grouped
by its view key with draws of equal keys kept in append order (Rust's
`sort_by_key` is stable; the sorted sequence is a permutation of the
recorded draws, is sorted by view, and per view key equals the recorded
subsequence), then every post-command in append order. -/
theorem dispatch_phase_order_and_stable_sort (f : Frame) :
    f.dispatch
        = f.pre.map Event.pre
          ++ (sortedDrawcalls f).flatMap
              (fun dc => [Event.bindView dc.view, Event.draw dc])
          ++ f.post.map Event.post
      ∧ List.Perm (sortedDrawcalls f) f.drawcalls
      ∧ (sortedDrawcalls f).Pairwise (fun a b => a.view ≤ b.view)
      ∧ ∀ k : Nat, (sortedDrawcalls f).filter (fun dc => dc.view == k)
          = f.drawcalls.filter (fun dc => dc.view == k) := by
  refine ⟨rfl, List.mergeSort_perm f.drawcalls viewLE, ?_,
    sortedDrawcalls_filter_stable f⟩
  have h := List.sorted_mergeSort viewLE_trans viewLE_total f.drawcalls
  exact h.imp (fun hab => by simpa [viewLE] using hab)

/-- C2 counterexample: in the frame `[preTaskA, preTaskB]` where the
device call for `preTaskA` fails, the dispatch panics (every device call
is `.unwrap()`-ed) and the later valid command `preTaskB` — although
part of the dispatch sequence — is never executed, contradicting the
claim that remaining commands still run. -/
theorem dispatch_failure_halts_remaining_cex :
    (frameAB.runDispatch failOnA).2 = true
    ∧ Event.pre preTaskB ∈ frameAB.dispatch
    ∧ Event.pre preTaskB ∉ (frameAB.runDispatch failOnA).1 := by
  have hsort : sortedDrawcalls frameAB = [] := by
    simp [sortedDrawcalls, frameAB]
  have hd : frameAB.dispatch = [Event.pre preTaskA, Event.pre preTaskB] := by
    unfold Frame.dispatch
    rw [hsort]
    rfl
  unfold Frame.runDispatch
  rw [hd]
  refine ⟨rfl, by decide, by decide⟩

theorem runEvents_first_failure (ok : Event → Bool) :
    ∀ l : List Event,
      runEvents ok l
        = if l.all ok then (l, false)
          else (l.takeWhile ok ++ (l.dropWhile ok).take 1, true)
  | [] => by simp [runEvents]
  | e :: es => by
    rw [runEvents]
    by_cases h : ok e = true
    · rw [if_pos h, runEvents_first_failure ok es]
      by_cases ha : es.all ok
      · simp [List.all_cons, h, ha, List.takeWhile_cons, List.dropWhile_cons]
      · simp [List.all_cons, h, ha, List.takeWhile_cons, List.dropWhile_cons]
    · rw [if_neg h]
      simp [List.all_cons, h, List.takeWhile_cons, List.dropWhile_cons]

/-- C2 amended: a command whose device call fails does abort the
remaining commands — `Frame::dispatch` `.unwrap()`s every device call,
so the commands strictly before the first failing one execute, the
failing one is the last attempted, the dispatch panics, and no later
command of the same frame (pre, draw or post) runs.  When every call
succeeds the whole sequence executes in order. -/
theorem runDispatch_aborts_at_first_failure (f : Frame) (ok : Event → Bool) :
    f.runDispatch ok
      = if f.dispatch.all ok then (f.dispatch, false)
        else (f.dispatch.takeWhile ok ++ (f.dispatch.dropWhile ok).take 1, true) :=
  runEvents_first_failure ok f.dispatch

/-! ## Visitor state-setter theorems (C3, C4) -/

/-- C3 counterexample: `OpenGLVisitor::new` initializes the cull-face
cache to `CullFace::Back`, so on a fresh visitor `set_cull_face(Back)`
twice issues zero underlying GL calls (the claim says one), and
`Back, Front, Back` issues two (the claim says three). -/
theorem set_cull_face_fresh_call_counts_cex :
    (runCullFaces OpenGLVisitor.new [CullFace.Back, CullFace.Back]).2 = 0
    ∧ (runCullFaces OpenGLVisitor.new
        [CullFace.Back, CullFace.Front, CullFace.Back]).2 = 2
    ∧ ¬ ((runCullFaces OpenGLVisitor.new [CullFace.Back, CullFace.Back]).2 = 1
          ∧ (runCullFaces OpenGLVisitor.new
              [CullFace.Back, CullFace.Front, CullFace.Back]).2 = 3) := by
  refine ⟨rfl, rfl, ?_⟩
  intro h
  exact absurd h.1 (by decide)

/-- C3 amended: `set_cull_face` calls through to GL exactly when the
requested face differs from the cached one (and always leaves the cache
at the requested value).  On a fresh visitor the cache starts at `Back`,
so `Back` twice issues zero calls and `Back, Front, Back` issues two;
a sequence starting from a non-cached value shows the claimed counts:
`Front` twice issues exactly one call and `Front, Back, Front` three. -/
theorem set_cull_face_calls_only_on_change (v : OpenGLVisitor) (face : CullFace)
    (glErr : Nat) :
    ((v.set_cull_face face glErr).2.1 = true ↔ face ≠ v.cull_face)
    ∧ (v.set_cull_face face glErr).1.cull_face = face
    ∧ (runCullFaces OpenGLVisitor.new [CullFace.Front, CullFace.Front]).2 = 1
    ∧ (runCullFaces OpenGLVisitor.new
        [CullFace.Front, CullFace.Back, CullFace.Front]).2 = 3 := by
  refine ⟨?_, ?_, rfl, rfl⟩
  · unfold OpenGLVisitor.set_cull_face
    by_cases h : v.cull_face = face
    · rw [if_neg (by simp [h])]
      simp [h]
    · rw [if_pos (by simp [h])]
      simpa using fun hh => h hh.symm
  · unfold OpenGLVisitor.set_cull_face
    by_cases h : v.cull_face = face
    · rw [if_neg (by simp [h])]
      exact h
    · rw [if_pos (by simp [h])]

/-- C4 counterexample: on a fresh visitor, `set_cull_face(Front)` whose
GL calls fail (`gl::GetError` reports `INVALID_ENUM`) returns the error
but still commits the cache — the cached cull face changes from `Back`
to the requested `Front`; likewise a failed `bind_buffer` records the
new binding in the cache.  The code sets the cache before `check()`, so
a failed call does not leave the cache unchanged. -/
theorem failed_state_set_still_commits_cache_cex :
    OpenGLVisitor.new.cull_face = CullFace.Back
    ∧ (OpenGLVisitor.new.set_cull_face CullFace.Front glINVALID_ENUM).2.2
        = Except.error ErrorKind.InvalidEnum
    ∧ (OpenGLVisitor.new.set_cull_face CullFace.Front glINVALID_ENUM).1.cull_face
        = CullFace.Front
    ∧ (OpenGLVisitor.new.bind_buffer glARRAY_BUFFER 7 glINVALID_VALUE).map
        (fun r => (assocFind glARRAY_BUFFER r.1.active_bufs, r.2.2))
        = some (some 7, Except.error ErrorKind.InvalidValue) :=
  ⟨rfl, rfl, rfl, rfl⟩

theorem assocFind_insert {κ α : Type} [DecidableEq κ] (k : κ) (v : α) :
    ∀ l : List (κ × α), assocFind k (assocInsert k v l) = some v
  | [] => by simp [assocInsert, assocFind]
  | (k2, v2) :: rest => by
    unfold assocInsert
    by_cases h : k2 = k
    · rw [if_pos h]
      simp [assocFind]
    · rw [if_neg h]
      unfold assocFind
      rw [if_neg h]
      exact assocFind_insert k v rest

/-- C4 amended: in the state-setters and buffer binds the cache is
committed before the error check, so a failed GL call leaves the cache
holding the newly requested value rather than unchanged: after
`set_cull_face` the cached face is the requested one and after a
non-panicking `bind_buffer` the cached binding for the target is the
requested id, whatever `check()` returned.  By contrast
`get_uniform_location` runs `check()?` before memoizing, so there a
failed query leaves the visitor unchanged. -/
theorem cache_commit_precedes_error_check (v : OpenGLVisitor) (face : CullFace)
    (tp id glErr : Nat) (gl : OpenGLVisitor.GLLocations) (pid : Nat) (name : String) :
    ((v.set_cull_face face glErr).1.cull_face = face)
    ∧ (∀ r, v.bind_buffer tp id glErr = some r →
        assocFind tp r.1.active_bufs = some id)
    ∧ (∀ e, check glErr = Except.error e →
        (v.get_uniform_location gl pid name glErr).1 = v) := by
  refine ⟨?_, ?_, ?_⟩
  · unfold OpenGLVisitor.set_cull_face
    by_cases h : v.cull_face = face
    · rw [if_neg (by simp [h])]
      exact h
    · rw [if_pos (by simp [h])]
  · intro r hr
    unfold OpenGLVisitor.bind_buffer at hr
    split at hr
    · cases hfind : assocFind tp v.active_bufs with
      | some record =>
        rw [hfind] at hr
        dsimp only at hr
        by_cases hrec : record = id
        · rw [if_pos hrec] at hr
          injection hr with hr
          rw [← hr]
          dsimp only
          rw [hfind, hrec]
        · rw [if_neg hrec] at hr
          injection hr with hr
          rw [← hr]
          exact assocFind_insert tp id v.active_bufs
      | none =>
        rw [hfind] at hr
        dsimp only at hr
        injection hr with hr
        rw [← hr]
        exact assocFind_insert tp id v.active_bufs
    · exact absurd hr (by simp)
  · intro e he
    unfold OpenGLVisitor.get_uniform_location
    cases hfind : assocFind pid v.program_uniform_locations with
    | some uniforms =>
      dsimp only
      cases hname : assocFind name uniforms with
      | some location => rfl
      | none =>
        rw [he]
    | none => rfl

/-- Witness for C4 amended, at a fresh visitor with failing GL calls. -/
theorem cache_commit_precedes_error_check_witness :
    (OpenGLVisitor.new.set_cull_face CullFace.Front glINVALID_ENUM).1.cull_face
        = CullFace.Front
    ∧ assocFind glARRAY_BUFFER
        ({ OpenGLVisitor.new with
            active_bufs := [(glARRAY_BUFFER, 7)] } : OpenGLVisitor).active_bufs
        = some 7
    ∧ (OpenGLVisitor.new.get_uniform_location glLocsX 1 "x" glINVALID_VALUE).1
        = OpenGLVisitor.new :=
  have h := cache_commit_precedes_error_check OpenGLVisitor.new CullFace.Front
    glARRAY_BUFFER 7 glINVALID_VALUE glLocsX 1 "x"
  ⟨h.1, h.2.1 _ rfl, h.2.2 ErrorKind.InvalidValue rfl⟩

/-! ## Location caches, create_program, check (C7, C8, C9) -/

/-- C7 (code bug): `get_attribute_location` borrows
`self.program_uniform_locations` instead of
`self.program_attribute_locations`, so the two name-to-location caches
are not independent.  On program 1 whose GL uniform "x" is at location 5
and attribute "x" at location 2: the uniform query memoizes 5, and the
following attribute query for the same name returns `Ok(5)` out of the
uniform cache — never performing the attribute query (which would give
2) — while the dedicated attribute cache stays empty. -/
theorem get_attribute_location_reads_uniform_cache :
    (OpenGLVisitor.get_uniform_location visitorP1 glLocsX 1 "x" glNO_ERROR).2
        = Except.ok 5
    ∧ (OpenGLVisitor.get_attribute_location
          (OpenGLVisitor.get_uniform_location visitorP1 glLocsX 1 "x" glNO_ERROR).1
          glLocsX 1 "x" glNO_ERROR).2 = Except.ok 5
    ∧ glLocsX.attribLoc 1 "x" = 2
    ∧ (OpenGLVisitor.get_attribute_location
          (OpenGLVisitor.get_uniform_location visitorP1 glLocsX 1 "x" glNO_ERROR).1
          glLocsX 1 "x" glNO_ERROR).1.program_attribute_locations = [(1, [])] :=
  ⟨rfl, rfl, rfl, rfl⟩

/-- C8 counterexample: the error returned by `create_program` does not
name the failing stage.  A vertex-stage failure compiling source "alpha"
(fragment "beta" fine) and a fragment-stage failure compiling source
"alpha" (vertex "beta" fine), both with info log "log", produce the very
same error value, so the error cannot identify the stage. -/
theorem create_program_error_omits_stage_cex :
    (OpenGLVisitor.create_program OpenGLVisitor.new envVsFail srcAlpha srcBeta
        glNO_ERROR).2
      = Except.error (ErrorKind.FailedCompilePipeline
          (logStr ++ ". with source:\n" ++ srcAlpha ++ "\n"))
    ∧ (OpenGLVisitor.create_program OpenGLVisitor.new envFsFail srcBeta srcAlpha
        glNO_ERROR).2
      = Except.error (ErrorKind.FailedCompilePipeline
          (logStr ++ ". with source:\n" ++ srcAlpha ++ "\n")) :=
  ⟨rfl, rfl⟩

/-- C8 amended: a failed `create_program` returns
`ErrorKind::FailedCompilePipeline` carrying the info log — with the
failing shader's source text appended for compile failures and the log
alone for link failures, but without naming the stage — and registers
nothing: the visitor's caches are unchanged. -/
theorem create_program_failure_behavior (v : OpenGLVisitor)
    (env : OpenGLVisitor.ShaderEnv) (vs fs : String) (glErr : Nat) :
    (env.vsCompileOk = false →
      v.create_program env vs fs glErr
        = (v, Except.error (ErrorKind.FailedCompilePipeline
            (env.vsLog ++ ". with source:\n" ++ vs ++ "\n"))))
    ∧ (env.vsCompileOk = true → env.fsCompileOk = false →
      v.create_program env vs fs glErr
        = (v, Except.error (ErrorKind.FailedCompilePipeline
            (env.fsLog ++ ". with source:\n" ++ fs ++ "\n"))))
    ∧ (env.vsCompileOk = true → env.fsCompileOk = true → env.linkOk = false →
      v.create_program env vs fs glErr
        = (v, Except.error (ErrorKind.FailedCompilePipeline (env.linkLog ++ ". ")))) := by
  unfold OpenGLVisitor.create_program OpenGLVisitor.compile OpenGLVisitor.link
  refine ⟨fun h1 => ?_, fun h1 h2 => ?_, fun h1 h2 h3 => ?_⟩
  · rw [h1]
    rfl
  · rw [h1, h2]
    rfl
  · rw [h1, h2, h3]
    rfl

/-- Witness for C8 amended: the fragment-failure case at a fresh
visitor. -/
theorem create_program_failure_behavior_witness :
    OpenGLVisitor.create_program OpenGLVisitor.new envFsFail srcAlpha srcBeta glNO_ERROR
      = (OpenGLVisitor.new, Except.error (ErrorKind.FailedCompilePipeline
          (logStr ++ ". with source:\n" ++ srcBeta ++ "\n"))) :=
  (create_program_failure_behavior OpenGLVisitor.new envFsFail srcAlpha srcBeta
    glNO_ERROR).2.1 rfl rfl

/-- C9 counterexample: `check()` maps `gl::OUT_OF_MEMORY` to
`ErrorKind::OutOfBounds`, not to a dedicated out-of-memory kind (the
spec-modelled `ErrorKind.OutOfMemory`). -/
theorem check_out_of_memory_cex :
    check glOUT_OF_MEMORY = Except.error ErrorKind.OutOfBounds
    ∧ check glOUT_OF_MEMORY ≠ Except.error ErrorKind.OutOfMemory := by
  refine ⟨rfl, ?_⟩
  intro h
  rw [show check glOUT_OF_MEMORY = Except.error ErrorKind.OutOfBounds from rfl] at h
  exact ErrorKind.noConfusion (Except.error.inj h)

/-- C9 amended: `check()` maps `NO_ERROR` to `Ok`, `INVALID_ENUM`,
`INVALID_VALUE`, `INVALID_OPERATION` and
`INVALID_FRAMEBUFFER_OPERATION` to the corresponding kinds,
`OUT_OF_MEMORY` to the `OutOfBounds` kind (not an out-of-memory kind),
and every other code to the unknown kind. -/
theorem check_error_code_mapping (c : Nat) :
    check glNO_ERROR = Except.ok ()
    ∧ check glINVALID_ENUM = Except.error ErrorKind.InvalidEnum
    ∧ check glINVALID_VALUE = Except.error ErrorKind.InvalidValue
    ∧ check glINVALID_OPERATION = Except.error ErrorKind.InvalidOperation
    ∧ check glINVALID_FRAMEBUFFER_OPERATION
        = Except.error ErrorKind.InvalidFramebufferOperation
    ∧ check glOUT_OF_MEMORY = Except.error ErrorKind.OutOfBounds
    ∧ (c ∉ [glNO_ERROR, glINVALID_ENUM, glINVALID_VALUE, glINVALID_OPERATION,
          glINVALID_FRAMEBUFFER_OPERATION, glOUT_OF_MEMORY] →
        check c = Except.error ErrorKind.Unknown) := by
  refine ⟨rfl, rfl, rfl, rfl, rfl, rfl, ?_⟩
  intro hc
  simp only [List.mem_cons, List.mem_singleton, not_or] at hc
  obtain ⟨h0, h1, h2, h3, h4, h5, -⟩ := hc
  unfold check
  rw [if_neg h0, if_neg h1, if_neg h2, if_neg h3, if_neg h4, if_neg h5]

/-- Witness for C9 amended: code 7 is none of the recognized codes and
maps to the unknown kind. -/
theorem check_error_code_mapping_witness :
    check 7 = Except.error ErrorKind.Unknown :=
  (check_error_code_mapping 7).2.2.2.2.2.2 (by decide)

end Crayon
